/-
Verification of the load-test coordination code of
`microservices-deployment-comparison`.

The development shallowly embeds the Python sources:

* `SharedState` (src/load-test/locustfile.py, lines 49-103): a
  lock-protected record of product ids, a setup flag, two result
  counters and a customer-id counter.  Because every method of the
  Python class holds the single lock for its whole body, a concurrent
  execution is exactly a sequence of atomic operations; we model it as
  a pure state-transition function over a trace of operations.
* the response-handling code of the virtual-user tasks
  (`ProductSetupUser.create_product`, `ShopperUser._add_item_to_cart`,
  `ShopperUser._checkout_cart` in locustfile.py,
  `LocalStackUser._checkout` in locustfile_localstack.py,
  `AWSUser._create_product` in locustfile_aws.py): pure functions from
  an HTTP response to a state change plus a metrics outcome.
* `create_summary` / `calc_diff` of src/analysis/compare_results.py:
  arithmetic over ℚ (the concrete values checked are exactly
  representable in binary floating point, so ℚ agrees with the Python
  float computation on them).

Python `random.choice` is modelled by passing an explicit index oracle;
Python truthiness of an optional integer (`if product_id:`) is modelled
by `pyTruthy`.
-/
import Mathlib

namespace LoadTest

/-- The shared, lock-protected state of locustfile.py (`SharedState.__init__`,
lines 50-56).  Counters are integers as in Python; the customer-id counter
starts at 1. -/
structure SharedState where
  product_ids : List Int
  setup_complete : Bool
  checkout_count : Int
  declined_count : Int
  customer_id_counter : Int
  deriving DecidableEq

/-- A freshly constructed `SharedState()`. -/
def SharedState.init : SharedState :=
  { product_ids := []
    setup_complete := false
    checkout_count := 0
    declined_count := 0
    customer_id_counter := 1 }

namespace SharedState

/-- `add_product` (locustfile.py lines 58-60): appends to the product list. -/
def add_product (s : SharedState) (product_id : Int) : SharedState :=
  { s with product_ids := s.product_ids ++ [product_id] }

/-- `get_random_product` (locustfile.py lines 62-64).  `random.choice` picks
an element of the list; the random draw is modelled by an explicit index
oracle `k` reduced modulo the length.  Returns `none` (Python `None`) when
the list is empty. -/
def get_random_product (s : SharedState) (k : Nat) : Option Int :=
  match s.product_ids with
  | [] => none
  | a :: l =>
      some ((a :: l).get ⟨k % (a :: l).length, Nat.mod_lt _ (Nat.succ_pos _)⟩)

/-- `mark_setup_complete` (locustfile.py lines 66-68). -/
def mark_setup_complete (s : SharedState) : SharedState :=
  { s with setup_complete := true }

/-- `is_setup_complete` (locustfile.py lines 70-72). -/
def is_setup_complete (s : SharedState) : Bool :=
  s.setup_complete

/-- `increment_checkout` (locustfile.py lines 74-77): increments and returns
the new value. -/
def increment_checkout (s : SharedState) : Int × SharedState :=
  (s.checkout_count + 1, { s with checkout_count := s.checkout_count + 1 })

/-- `increment_declined` (locustfile.py lines 79-82): increments and returns
the new value. -/
def increment_declined (s : SharedState) : Int × SharedState :=
  (s.declined_count + 1, { s with declined_count := s.declined_count + 1 })

/-- `get_checkout_count` (locustfile.py lines 84-86). -/
def get_checkout_count (s : SharedState) : Int :=
  s.checkout_count

/-- `get_declined_count` (locustfile.py lines 88-90). -/
def get_declined_count (s : SharedState) : Int :=
  s.declined_count

/-- `get_next_customer_id` (locustfile.py lines 92-96): returns the counter
value before the increment. -/
def get_next_customer_id (s : SharedState) : Int × SharedState :=
  (s.customer_id_counter,
   { s with customer_id_counter := s.customer_id_counter + 1 })

/-- `get_product_count` (locustfile.py lines 98-100). -/
def get_product_count (s : SharedState) : Nat :=
  s.product_ids.length

end SharedState

/-- One atomic `SharedState` method call.  Since every Python method holds
the single lock for its entire body, any concurrent history of calls is a
sequence of these operations. -/
inductive Op
  | addProduct (id : Int)
  | getRandomProduct (k : Nat)
  | markSetupComplete
  | isSetupComplete
  | incrementCheckout
  | incrementDeclined
  | getCheckoutCount
  | getDeclinedCount
  | getNextCustomerId
  | getProductCount
  deriving DecidableEq

/-- Effect of one operation on the shared state (read-only operations leave
it unchanged). -/
def applyOp (s : SharedState) : Op → SharedState
  | .addProduct id => s.add_product id
  | .getRandomProduct _ => s
  | .markSetupComplete => s.mark_setup_complete
  | .isSetupComplete => s
  | .incrementCheckout => (s.increment_checkout).2
  | .incrementDeclined => (s.increment_declined).2
  | .getCheckoutCount => s
  | .getDeclinedCount => s
  | .getNextCustomerId => (s.get_next_customer_id).2
  | .getProductCount => s

/-- Run a trace of operations from a state. -/
def runOps (s : SharedState) : List Op → SharedState
  | [] => s
  | op :: ops => runOps (applyOp s op) ops

/-- The values returned by the `get_next_customer_id` calls of a trace, in
call order. -/
def customerIdsReturned (s : SharedState) : List Op → List Int
  | [] => []
  | .getNextCustomerId :: ops =>
      (s.get_next_customer_id).1 ::
        customerIdsReturned (applyOp s .getNextCustomerId) ops
  | op :: ops => customerIdsReturned (applyOp s op) ops

/-- Number of `get_next_customer_id` calls in a trace. -/
def countCustomerIdCalls : List Op → Nat
  | [] => 0
  | .getNextCustomerId :: ops => countCustomerIdCalls ops + 1
  | _ :: ops => countCustomerIdCalls ops

/-- Number of `add_product` calls in a trace. -/
def countAddProduct : List Op → Nat
  | [] => 0
  | .addProduct _ :: ops => countAddProduct ops + 1
  | _ :: ops => countAddProduct ops

/-- Number of `increment_checkout` calls in a trace. -/
def countIncCheckout : List Op → Nat
  | [] => 0
  | .incrementCheckout :: ops => countIncCheckout ops + 1
  | _ :: ops => countIncCheckout ops

/-- Number of `increment_declined` calls in a trace. -/
def countIncDeclined : List Op → Nat
  | [] => 0
  | .incrementDeclined :: ops => countIncDeclined ops + 1
  | _ :: ops => countIncDeclined ops

/-- The product ids passed to `add_product` in a trace, in call order. -/
def addedIds : List Op → List Int
  | [] => []
  | .addProduct id :: ops => id :: addedIds ops
  | _ :: ops => addedIds ops

lemma customerIdsReturned_eq (ops : List Op) : ∀ s : SharedState,
    customerIdsReturned s ops =
      (List.range (countCustomerIdCalls ops)).map
        (fun i : Nat => s.customer_id_counter + (i : Int)) := by
  induction ops with
  | nil => intro s; rfl
  | cons op ops ih =>
      intro s
      cases op
      case getNextCustomerId =>
        simp only [customerIdsReturned, countCustomerIdCalls,
          List.range_succ_eq_map, List.map_cons, List.map_map, ih,
          List.cons.injEq]
        refine ⟨by simp [SharedState.get_next_customer_id],
          List.map_congr_left ?_⟩
        intro i _
        simp only [applyOp, SharedState.get_next_customer_id, Function.comp]
        push_cast
        ring
      all_goals
        simp only [customerIdsReturned, countCustomerIdCalls, ih]
        rfl

lemma run_product_ids (ops : List Op) : ∀ s : SharedState,
    (runOps s ops).product_ids = s.product_ids ++ addedIds ops := by
  induction ops with
  | nil => intro s; simp [runOps, addedIds]
  | cons op ops ih =>
      intro s
      cases op
      case addProduct id =>
        simp [runOps, addedIds, ih, applyOp, SharedState.add_product]
      all_goals
        simp [runOps, addedIds, ih, applyOp,
          SharedState.mark_setup_complete, SharedState.increment_checkout,
          SharedState.increment_declined, SharedState.get_next_customer_id]

lemma run_checkout_count (ops : List Op) : ∀ s : SharedState,
    (runOps s ops).checkout_count =
      s.checkout_count + (countIncCheckout ops : Int) := by
  induction ops with
  | nil => intro s; simp [runOps, countIncCheckout]
  | cons op ops ih =>
      intro s
      cases op
      case incrementCheckout =>
        simp only [runOps, countIncCheckout, ih, applyOp,
          SharedState.increment_checkout]
        push_cast
        ring
      all_goals
        simp only [runOps, countIncCheckout, ih, applyOp,
          SharedState.add_product, SharedState.mark_setup_complete,
          SharedState.increment_declined, SharedState.get_next_customer_id]

lemma run_declined_count (ops : List Op) : ∀ s : SharedState,
    (runOps s ops).declined_count =
      s.declined_count + (countIncDeclined ops : Int) := by
  induction ops with
  | nil => intro s; simp [runOps, countIncDeclined]
  | cons op ops ih =>
      intro s
      cases op
      case incrementDeclined =>
        simp only [runOps, countIncDeclined, ih, applyOp,
          SharedState.increment_declined]
        push_cast
        ring
      all_goals
        simp only [runOps, countIncDeclined, ih, applyOp,
          SharedState.add_product, SharedState.mark_setup_complete,
          SharedState.increment_checkout, SharedState.get_next_customer_id]

lemma applyOp_setup_mono (s : SharedState) (op : Op)
    (h : s.setup_complete = true) : (applyOp s op).setup_complete = true := by
  cases op <;>
    simp [applyOp, SharedState.add_product, SharedState.mark_setup_complete,
      SharedState.increment_checkout, SharedState.increment_declined,
      SharedState.get_next_customer_id, h]

lemma runOps_setup_mono (ops : List Op) : ∀ s : SharedState,
    s.setup_complete = true → (runOps s ops).setup_complete = true := by
  induction ops with
  | nil => intro s h; exact h
  | cons op ops ih => intro s h; exact ih _ (applyOp_setup_mono s op h)

/-- Python truthiness of an optional integer (`if x:` where `x` is `None`
or an `int`): false for `None` and for `0`. -/
def pyTruthy : Option Int → Bool
  | none => false
  | some v => v != 0

/-- An HTTP response as seen by the response handlers.  `exn` models a
request-level exception (the status branches never run).  In
`response status body`, `body = none` models a body on which
`resp.json()` raises (parse error), and `body = some j` models a parsed
body where `j` is the value of `.get(<field>)` for the field of interest
(`order_id` for checkout, `product_id` / `shopping_cart_id` for creation),
`none` when the field is missing. -/
inductive HttpResp
  | exn
  | response (status : Nat) (body : Option (Option Int))
  deriving DecidableEq

/-- Outcome reported to the load-generation engine's metrics sink:
`resp.success()` / `events.request.fire(exception=None)` versus
`resp.failure(reason)` / `events.request.fire(exception=...)`. -/
inductive Outcome
  | success
  | failure (reason : String)
  deriving DecidableEq

/-- `ShopperUser._checkout_cart` response handling (locustfile.py lines
249-279): a 200 whose body carries a truthy `order_id` increments the
checkout counter and reports success; a 200 with a parse error or a
missing/falsy `order_id` reports failure without touching any counter;
a 402 increments the declined counter and reports success; anything else
reports failure without touching any counter. -/
def checkout_cart (s : SharedState) (r : HttpResp) : SharedState × Outcome :=
  match r with
  | .exn => (s, .failure "request exception")
  | .response status body =>
      if status = 200 then
        match body with
        | none => (s, .failure "Parse error")
        | some orderId =>
            if pyTruthy orderId then ((s.increment_checkout).2, .success)
            else (s, .failure "No order_id")
      else if status = 402 then ((s.increment_declined).2, .success)
      else (s, .failure ("Status " ++ toString status))

/-- `LocalStackUser._checkout` response handling
(locustfile_localstack.py lines 301-358): any 200 increments the checkout
counter (the body is never inspected), a 402 increments the declined
counter, both are reported with `exception=None`; any other status or a
request exception is reported as a failure and the function returns
False.  Result: (new state, metrics outcome, boolean return value). -/
def localstack_checkout (s : SharedState) (r : HttpResp) :
    SharedState × Outcome × Bool :=
  match r with
  | .exn => (s, .failure "request exception", false)
  | .response status _ =>
      if status = 200 then ((s.increment_checkout).2, .success, true)
      else if status = 402 then ((s.increment_declined).2, .success, true)
      else (s, .failure ("Status " ++ toString status), false)

/-- Run a sequence of checkout attempts through
`ShopperUser._checkout_cart`. -/
def runCheckouts (s : SharedState) : List HttpResp → SharedState
  | [] => s
  | r :: rs => runCheckouts (checkout_cart s r).1 rs

/-- Run a sequence of checkout attempts through
`LocalStackUser._checkout`. -/
def runLocalCheckouts (s : SharedState) : List HttpResp → SharedState
  | [] => s
  | r :: rs => runLocalCheckouts (localstack_checkout s r).1 rs

/-- Did the attempt reach a terminal 200-or-402 HTTP response?  (This is
the quantity the claim compares the counters against.) -/
def isTerminal200or402 : HttpResp → Bool
  | .exn => false
  | .response status _ => status = 200 || status = 402

/-- Does `ShopperUser._checkout_cart` increment one of the two counters
on this attempt: a 402, or a 200 whose body carries a truthy
`order_id`. -/
def isCounted : HttpResp → Bool
  | .exn => false
  | .response status body =>
      if status = 200 then
        match body with
        | none => false
        | some orderId => pyTruthy orderId
      else status = 402

lemma checkout_cart_sum (s : SharedState) (r : HttpResp) :
    (checkout_cart s r).1.checkout_count +
      (checkout_cart s r).1.declined_count =
    s.checkout_count + s.declined_count +
      (if isCounted r then 1 else 0) := by
  cases r with
  | exn => simp [checkout_cart, isCounted]
  | response status body =>
      by_cases h200 : status = 200
      · cases body with
        | none => simp [checkout_cart, isCounted, h200]
        | some orderId =>
            by_cases ht : pyTruthy orderId
            · simp only [checkout_cart, isCounted, h200, ht, if_true,
                if_pos rfl, SharedState.increment_checkout]
              ring
            · simp [checkout_cart, isCounted, h200, ht]
      · by_cases h402 : status = 402
        · simp only [checkout_cart, isCounted, h200, h402,
            SharedState.increment_declined, if_neg h200, if_pos rfl]
          simp
          ring
        · simp [checkout_cart, isCounted, h200, h402]

lemma runCheckouts_sum (rs : List HttpResp) : ∀ s : SharedState,
    (runCheckouts s rs).checkout_count + (runCheckouts s rs).declined_count =
      s.checkout_count + s.declined_count + (rs.countP isCounted : Int) := by
  induction rs with
  | nil => intro s; simp [runCheckouts]
  | cons r rs ih =>
      intro s
      rw [runCheckouts, ih, checkout_cart_sum, List.countP_cons]
      by_cases h : isCounted r <;> simp [h] <;> ring

lemma localstack_checkout_sum (s : SharedState) (r : HttpResp) :
    (localstack_checkout s r).1.checkout_count +
      (localstack_checkout s r).1.declined_count =
    s.checkout_count + s.declined_count +
      (if isTerminal200or402 r then 1 else 0) := by
  cases r with
  | exn => simp [localstack_checkout, isTerminal200or402]
  | response status body =>
      by_cases h200 : status = 200
      · simp only [localstack_checkout, isTerminal200or402, h200,
          SharedState.increment_checkout, if_pos rfl]
        simp
        ring
      · by_cases h402 : status = 402
        · simp only [localstack_checkout, isTerminal200or402, h200, h402,
            SharedState.increment_declined, if_neg h200, if_pos rfl]
          simp
          ring
        · simp [localstack_checkout, isTerminal200or402, h200, h402]

lemma runLocalCheckouts_sum (rs : List HttpResp) : ∀ s : SharedState,
    (runLocalCheckouts s rs).checkout_count +
      (runLocalCheckouts s rs).declined_count =
      s.checkout_count + s.declined_count +
        (rs.countP isTerminal200or402 : Int) := by
  induction rs with
  | nil => intro s; simp [runLocalCheckouts]
  | cons r rs ih =>
      intro s
      rw [runLocalCheckouts, ih, localstack_checkout_sum, List.countP_cons]
      by_cases h : isTerminal200or402 r <;> simp [h] <;> ring

/-- C2 counterexample: a single checkout attempt that reaches a terminal
200 response whose body parses but has no `order_id` increments neither
counter in `ShopperUser._checkout_cart`, so after this run
`checkout_count + declined_count = 0` while the number of attempts that
reached a terminal 200-or-402 response is 1. -/
theorem checkout_sum_counterexample :
    (runCheckouts SharedState.init
        [HttpResp.response 200 (some none)]).checkout_count +
      (runCheckouts SharedState.init
        [HttpResp.response 200 (some none)]).declined_count = 0 ∧
    ([HttpResp.response 200 (some none)].countP isTerminal200or402 = 1) ∧
    (runCheckouts SharedState.init
        [HttpResp.response 200 (some none)]).checkout_count +
      (runCheckouts SharedState.init
        [HttpResp.response 200 (some none)]).declined_count ≠
      (([HttpResp.response 200 (some none)].countP isTerminal200or402 :
        Nat) : Int) := by
  refine ⟨rfl, rfl, ?_⟩
  decide

/-- C2 amended: after any sequence of checkout attempts from a fresh
state, `checkout_count + declined_count` equals, for
`ShopperUser._checkout_cart` (locustfile.py), the number of attempts that
got a 402 or a 200 whose body carried a truthy `order_id` (a 200 with a
parse error or a missing `order_id`, any other status, and request
exceptions increment neither counter); and for `LocalStackUser._checkout`
(locustfile_localstack.py), the number of attempts that got a terminal
200-or-402 response (errored attempts increment neither counter). -/
theorem checkout_sum_equals_counted_attempts (rs : List HttpResp) :
    (runCheckouts SharedState.init rs).checkout_count +
      (runCheckouts SharedState.init rs).declined_count =
      (rs.countP isCounted : Int) ∧
    (runLocalCheckouts SharedState.init rs).checkout_count +
      (runLocalCheckouts SharedState.init rs).declined_count =
      (rs.countP isTerminal200or402 : Int) := by
  constructor
  · have h := runCheckouts_sum rs SharedState.init
    simpa [SharedState.init] using h
  · have h := runLocalCheckouts_sum rs SharedState.init
    simpa [SharedState.init] using h

/-- `ProductSetupUser.create_product` response handling (locustfile.py
lines 154-180), parameterised by the configured `NUM_INITIAL_PRODUCTS`
target.  On a 201 whose body carries a truthy `product_id` the id is
appended to the pool, and if the pool has then reached the target the
setup flag is set; a 201 with a parse error or a missing/falsy
`product_id` is reported as a failure and the pool is untouched; any
other status is reported as `Status <code>`.  (The pre-request
`get_product_count() >= NUM_INITIAL_PRODUCTS` stop check of lines 150-152
happens before the request and is modelled in the setup protocol
below.) -/
def create_product (target : Nat) (s : SharedState) (r : HttpResp) :
    SharedState × Outcome :=
  match r with
  | .exn => (s, .failure "request exception")
  | .response status body =>
      if status = 201 then
        match body with
        | none => (s, .failure "Parse error")
        | some none => (s, .failure "No product_id")
        | some (some pid) =>
            if pid = 0 then (s, .failure "No product_id")
            else
              let s1 := s.add_product pid
              (if target ≤ s1.get_product_count then s1.mark_setup_complete
               else s1, .success)
      else (s, .failure ("Status " ++ toString status))

/-- The fall-through tail of `AWSUser._create_product`
(locustfile_aws.py lines 160-164): reached whenever the truthy-id 200/201
branch did not return; a 503 is counted as success for metrics (expected
bad-service behaviour), anything else as a failure. -/
def awsCreateFallthrough (s : SharedState) (status : Nat) :
    SharedState × Outcome × Bool :=
  if status = 503 then (s, Outcome.success, false)
  else (s, Outcome.failure ("Status " ++ toString status), false)

/-- `AWSUser._create_product` response handling (locustfile_aws.py lines
144-166): a 200 or 201 whose body carries a truthy `product_id` appends
it to the pool, reports success and returns True; otherwise (parse error,
missing/falsy id, or any other status) control falls through to the
503-check tail.  Result: (new state, metrics outcome, boolean return
value). -/
def aws_create_product (s : SharedState) (r : HttpResp) :
    SharedState × Outcome × Bool :=
  match r with
  | .exn => (s, .failure "request exception", false)
  | .response status body =>
      if status = 200 ∨ status = 201 then
        match body with
        | some (some pid) =>
            if pid = 0 then awsCreateFallthrough s status
            else (s.add_product pid, .success, true)
        | _ => awsCreateFallthrough s status
      else awsCreateFallthrough s status

/-- `AWSUser._checkout` response handling (locustfile_aws.py lines
239-265): a 200 whose body carries a truthy `order_id` increments the
checkout counter and reports success; a 200 with a parse error
(`except: pass`) or a missing/falsy `order_id` reports `No order_id`; a
402 increments the declined counter and reports success; anything else
reports failure.  Result: (new state, metrics outcome, boolean return
value). -/
def aws_checkout (s : SharedState) (r : HttpResp) :
    SharedState × Outcome × Bool :=
  match r with
  | .exn => (s, .failure "request exception", false)
  | .response status body =>
      if status = 200 then
        match body with
        | some orderId =>
            if pyTruthy orderId then
              ((s.increment_checkout).2, .success, true)
            else (s, .failure "No order_id", false)
        | none => (s, .failure "No order_id", false)
      else if status = 402 then ((s.increment_declined).2, .success, true)
      else (s, .failure ("Status " ++ toString status), false)

/-- Checkout response handling of both user variants of
locustfile_comparison.py (`LocalStackUser.shopping_flow`, lines 271-291,
and `AWSUser.shopping_flow`, lines 399-410): a 200 or a 402 increments
the checkout counter (the body is never inspected, and a 402 is counted
as a checkout, not as a decline) and is reported as success; any other
status or a request exception is reported as a failure. -/
def comparison_checkout (s : SharedState) (r : HttpResp) :
    SharedState × Outcome :=
  match r with
  | .exn => (s, .failure "request exception")
  | .response status _ =>
      if status = 200 ∨ status = 402 then
        ((s.increment_checkout).2, .success)
      else (s, .failure ("Status " ++ toString status))

/-- Modelled from the spec: the checkout task of
load-test-client/locustfile.py (lines 19-24) posts without
`catch_response`, so its metrics outcome is the load-generation engine's
default classification, which the spec's error taxonomy describes as
reporting an HTTP non-success status as a hard failure; this predicate
is true exactly when the engine records the request as a success (an
HTTP status below 400 and no request exception). -/
def client_checkout_ok : HttpResp → Bool
  | .exn => false
  | .response status _ => status < 400

/-- C3 counterexample: the baseline `ProductSetupUser.create_product`
flow of locustfile.py classifies a 503 on `/product` as a hard failure
(`resp.failure("Status 503")`), not as a success, at any state. -/
theorem product_503_counterexample :
    (create_product 1000 SharedState.init (.response 503 none)).2 =
      Outcome.failure "Status 503" ∧
    (create_product 1000 SharedState.init (.response 503 none)).2 ≠
      Outcome.success := by
  constructor
  · rfl
  · decide

/-- C3 amended: a 402 on the checkout endpoint is recorded as a non-error
outcome (success to the metrics sink) in every checkout flow of the
load-test scripts — `ShopperUser._checkout_cart` (locustfile.py),
`LocalStackUser._checkout` (locustfile_localstack.py), `AWSUser._checkout`
(locustfile_aws.py), and both user variants of locustfile_comparison.py —
while the checkout task of load-test-client/locustfile.py, issued without
`catch_response`, is recorded by the engine's default classification as a
failure on a 402; and a 503 on `/product` is recorded as success in the
AWS user flow (`AWSUser._create_product`), but the baseline
`ProductSetupUser` flow of locustfile.py records a 503 on `/product` as a
hard failure. -/
theorem expected_status_classification (s : SharedState)
    (body : Option (Option Int)) (target : Nat) :
    (checkout_cart s (.response 402 body)).2 = Outcome.success ∧
    (localstack_checkout s (.response 402 body)).2.1 = Outcome.success ∧
    (aws_checkout s (.response 402 body)).2.1 = Outcome.success ∧
    (comparison_checkout s (.response 402 body)).2 = Outcome.success ∧
    client_checkout_ok (.response 402 body) = false ∧
    (aws_create_product s (.response 503 body)).2.1 = Outcome.success ∧
    (create_product target s (.response 503 body)).2 =
      Outcome.failure "Status 503" := by
  refine ⟨rfl, rfl, ?_, ?_, rfl, ?_, rfl⟩
  · have h402 : ¬((402 : Nat) = 200) := by decide
    simp [aws_checkout, h402]
  · have h402 : ((402 : Nat) = 200 ∨ (402 : Nat) = 402) := by decide
    simp [comparison_checkout, h402]
  · have h503 : ¬((503 : Nat) = 200 ∨ (503 : Nat) = 201) := by decide
    simp [aws_create_product, awsCreateFallthrough, h503]

/-- `ShopperUser._add_item_to_cart` (locustfile.py lines 232-247): draws
a product id from the shared pool and returns False without issuing any
HTTP request when the draw is falsy (`if not product_id:` — `None` or
`0`); otherwise issues the request and returns whether the status was
204.  Result: (was an HTTP request issued, boolean return value). -/
def add_item_to_cart (s : SharedState) (k : Nat) (status : Nat) :
    Bool × Bool :=
  let product_id := s.get_random_product k
  if pyTruthy product_id then (true, decide (status = 204))
  else (false, false)

/-- C10: the shopping caller tests the drawn product id for Python
truthiness, so a drawn id of 0 makes `_add_item_to_cart` return False
without issuing an HTTP request, exactly the behaviour on an empty
product list; complementarily, `ProductSetupUser.create_product` records
a 201 response whose `product_id` is 0 (or missing) as a failure and
leaves the pool untouched. -/
theorem zero_product_id_indistinguishable :
    (∀ (s : SharedState) (k status : Nat),
      s.get_random_product k = some 0 →
      add_item_to_cart s k status = (false, false)) ∧
    (∀ (s : SharedState) (k status : Nat),
      s.product_ids = [] →
      add_item_to_cart s k status = (false, false)) ∧
    (∀ (target : Nat) (s : SharedState),
      create_product target s (.response 201 (some (some 0))) =
        (s, Outcome.failure "No product_id")) ∧
    (∀ (target : Nat) (s : SharedState),
      create_product target s (.response 201 (some none)) =
        (s, Outcome.failure "No product_id")) := by
  refine ⟨?_, ?_, ?_, ?_⟩
  · intro s k status h
    simp [add_item_to_cart, h, pyTruthy]
  · intro s k status h
    have : s.get_random_product k = none := by
      simp [SharedState.get_random_product, h]
    simp [add_item_to_cart, this, pyTruthy]
  · intro target s
    rfl
  · intro target s
    rfl

/-- Witness for C10: with the pool equal to `[0]`, the draw returns 0 and
`_add_item_to_cart` issues no request and returns False; and a 201
response carrying `product_id = 0` is recorded as `No product_id` with
the state unchanged. -/
theorem zero_product_id_indistinguishable_witness :
    add_item_to_cart (SharedState.init.add_product 0) 0 204 =
      (false, false) ∧
    add_item_to_cart SharedState.init 0 204 = (false, false) ∧
    create_product 1000 SharedState.init (.response 201 (some (some 0))) =
      (SharedState.init, Outcome.failure "No product_id") :=
  ⟨zero_product_id_indistinguishable.1 (SharedState.init.add_product 0) 0 204
      rfl,
   zero_product_id_indistinguishable.2.1 SharedState.init 0 204 rfl,
   zero_product_id_indistinguishable.2.2.1 1000 SharedState.init⟩

/-- C1: in any trace of atomic `SharedState` operations starting from a
fresh state, the values returned by the `get_next_customer_id` calls are
exactly 1, 2, ..., N in call order (so the first call returns 1), they
contain no duplicates, and a value is returned iff it lies in {1..N},
where N is the number of such calls. -/
theorem customer_ids_no_gaps_no_repeats (ops : List Op) :
    customerIdsReturned SharedState.init ops =
      (List.range (countCustomerIdCalls ops)).map
        (fun i : Nat => 1 + (i : Int)) ∧
    (customerIdsReturned SharedState.init ops).Nodup ∧
    (∀ v : Int, v ∈ customerIdsReturned SharedState.init ops ↔
      1 ≤ v ∧ v ≤ (countCustomerIdCalls ops : Int)) := by
  have heq := customerIdsReturned_eq ops SharedState.init
  have hcounter : SharedState.init.customer_id_counter = 1 := rfl
  rw [hcounter] at heq
  refine ⟨heq, ?_, ?_⟩
  · rw [heq]
    refine List.Nodup.map ?_ (List.nodup_range _)
    intro a b hab
    simp only [add_right_inj] at hab
    exact_mod_cast hab
  · intro v
    rw [heq]
    simp only [List.mem_map, List.mem_range]
    constructor
    · rintro ⟨i, hi, rfl⟩
      omega
    · rintro ⟨h1, h2⟩
      exact ⟨(v - 1).toNat, by omega, by omega⟩

/-- C5: `mark_setup_complete` is idempotent — running it N ≥ 1 times in a
row from any state yields exactly the state of running it once (hence the
same subsequent observations) — and the setup flag is monotone: along any
trace of operations, `is_setup_complete` never falls back from true to
false. -/
theorem mark_setup_complete_idempotent_and_monotone :
    (∀ (s : SharedState) (n : Nat), 1 ≤ n →
      runOps s (List.replicate n .markSetupComplete) =
        s.mark_setup_complete) ∧
    (∀ (s : SharedState) (ops : List Op), s.is_setup_complete = true →
      (runOps s ops).is_setup_complete = true) := by
  constructor
  · intro s n hn
    induction n generalizing s with
    | zero => omega
    | succ m ih =>
        rcases Nat.eq_zero_or_pos m with hm | hm
        · subst hm; rfl
        · have : runOps s (List.replicate (m + 1) Op.markSetupComplete) =
              runOps s.mark_setup_complete
                (List.replicate m Op.markSetupComplete) := rfl
          rw [this, ih s.mark_setup_complete hm]
          rfl
  · intro s ops h
    exact runOps_setup_mono ops s h

/-- Witness for C5 at a concrete state and trace. -/
theorem mark_setup_complete_idempotent_and_monotone_witness :
    runOps SharedState.init (List.replicate 3 .markSetupComplete) =
      SharedState.init.mark_setup_complete ∧
    (runOps SharedState.init.mark_setup_complete
      [.incrementCheckout, .addProduct 7]).is_setup_complete = true :=
  ⟨mark_setup_complete_idempotent_and_monotone.1 SharedState.init 3
      (by decide),
   mark_setup_complete_idempotent_and_monotone.2
      SharedState.init.mark_setup_complete
      [.incrementCheckout, .addProduct 7] rfl⟩

/-- C6: `get_random_product` returns the `None` sentinel iff the product
list is currently empty, otherwise it returns an element of the product
list; and along any trace from a fresh state the product list consists
exactly of the values passed to `add_product`, so every non-sentinel
result was previously passed to `add_product`. -/
theorem get_random_product_spec :
    (∀ (s : SharedState) (k : Nat),
      (s.get_random_product k = none ↔ s.product_ids = []) ∧
      (∀ x : Int, s.get_random_product k = some x → x ∈ s.product_ids)) ∧
    (∀ ops : List Op, (runOps SharedState.init ops).product_ids =
      addedIds ops) := by
  constructor
  · intro s k
    constructor
    · cases h : s.product_ids with
      | nil => simp [SharedState.get_random_product, h]
      | cons a l => simp [SharedState.get_random_product, h]
    · intro x hx
      cases h : s.product_ids with
      | nil => simp [SharedState.get_random_product, h] at hx
      | cons a l =>
          simp only [SharedState.get_random_product, h,
            Option.some.injEq] at hx
          rw [← hx]
          apply List.get_mem
  · intro ops
    have h := run_product_ids ops SharedState.init
    simpa using h

/-- Witness for C6 at a concrete state: after adding product 5, index
oracle 0 returns 5, which is in the product list. -/
theorem get_random_product_spec_witness :
    (5 : Int) ∈ (SharedState.init.add_product 5).product_ids :=
  (get_random_product_spec.1 (SharedState.init.add_product 5) 0).2 5 rfl

/-- C7: from a fresh state, after any trace of operations the product
count equals the number of `add_product` calls, and the checkout/declined
counters equal the numbers of `increment_checkout` / `increment_declined`
calls; both counters are never negative, and no single operation ever
decreases any of the three quantities. -/
theorem counters_equal_completed_calls (ops : List Op) :
    ((runOps SharedState.init ops).get_product_count = countAddProduct ops ∧
     (runOps SharedState.init ops).checkout_count =
       (countIncCheckout ops : Int) ∧
     (runOps SharedState.init ops).declined_count =
       (countIncDeclined ops : Int)) ∧
    (0 ≤ (runOps SharedState.init ops).checkout_count ∧
     0 ≤ (runOps SharedState.init ops).declined_count) ∧
    (∀ (s : SharedState) (op : Op),
      s.checkout_count ≤ (applyOp s op).checkout_count ∧
      s.declined_count ≤ (applyOp s op).declined_count ∧
      s.get_product_count ≤ (applyOp s op).get_product_count) := by
  have hc := run_checkout_count ops SharedState.init
  have hd := run_declined_count ops SharedState.init
  have hp := run_product_ids ops SharedState.init
  have hcount : ∀ l : List Op, (addedIds l).length = countAddProduct l := by
    intro l
    induction l with
    | nil => rfl
    | cons op l ih =>
        cases op <;> simp [addedIds, countAddProduct, ih]
  refine ⟨⟨?_, ?_, ?_⟩, ⟨?_, ?_⟩, ?_⟩
  · have hp0 : (runOps SharedState.init ops).product_ids = addedIds ops := by
      simpa [SharedState.init] using hp
    simp [SharedState.get_product_count, hp0, hcount]
  · simpa [SharedState.init] using hc
  · simpa [SharedState.init] using hd
  · rw [hc]; simp [SharedState.init]
  · rw [hd]; simp [SharedState.init]
  · intro s op
    cases op <;>
      simp [applyOp, SharedState.add_product, SharedState.mark_setup_complete,
        SharedState.increment_checkout, SharedState.increment_declined,
        SharedState.get_next_customer_id, SharedState.get_product_count]

namespace Analysis

/-- Round-half-even of a rational to an integer.  Python's `round` and
`format` round the underlying double to nearest, ties to even; on values
whose decimal expansion is exactly representable (all values checked
below) this agrees with the float computation. -/
def roundHalfEven (q : ℚ) : ℤ :=
  if q - ⌊q⌋ < 1 / 2 then ⌊q⌋
  else if 1 / 2 < q - ⌊q⌋ then ⌊q⌋ + 1
  else if ⌊q⌋ % 2 = 0 then ⌊q⌋ else ⌊q⌋ + 1

/-- Python `round(x, 2)`. -/
def pyRound2 (q : ℚ) : ℚ :=
  (roundHalfEven (q * 100) : ℚ) / 100

/-- The failure-rate entries of `create_summary`
(src/analysis/compare_results.py lines 108 and 118):
`round(Failure Count / max(Request Count, 1) * 100, 2)`, with missing
counts defaulting to 0 via `safe_get`. -/
def failure_rate (failureCount requestCount : ℚ) : ℚ :=
  pyRound2 (failureCount / max requestCount 1 * 100)

/-- Render `t` tenths as Python's `f"{diff:+.1f}%"` does, the sign taken
from the unrounded value `diff` (Python keeps the sign of the double, so
a negative value rounding to zero prints `-0.0`). -/
def fmtSignedTenths (diff : ℚ) (t : ℤ) : String :=
  (if diff < 0 then "-" else "+") ++ toString (t.natAbs / 10) ++ "." ++
    toString (t.natAbs % 10) ++ "%"

/-- `calc_diff` (src/analysis/compare_results.py lines 88-92): returns
the string `N/A` when the LocalStack baseline is 0, otherwise the
percentage change formatted with an explicit sign and one decimal
place. -/
def calc_diff (ls_val aws_val : ℚ) : String :=
  if ls_val = 0 then "N/A"
  else
    fmtSignedTenths ((aws_val - ls_val) / ls_val * 100)
      (roundHalfEven ((aws_val - ls_val) / ls_val * 100 * 10))

lemma roundHalfEven_intCast (n : ℤ) : roundHalfEven (n : ℚ) = n := by
  unfold roundHalfEven
  rw [Int.floor_intCast]
  norm_num

lemma pyRound2_eval (q : ℚ) (n : ℤ) (h : q * 100 = (n : ℚ)) :
    pyRound2 q = (n : ℚ) / 100 := by
  rw [pyRound2, h, roundHalfEven_intCast]

/-- C8: on the aggregated rows `Request Count=100, Failure Count=5` and
`Request Count=200, Failure Count=40`, `create_summary` computes failure
rates 5.0 and 20.0 percent, and `calc_diff` renders a metric that changed
from 1 to 4 as the string `+300.0%` (explicit sign, one decimal). -/
theorem create_summary_scenario :
    failure_rate 5 100 = 5 ∧ failure_rate 40 200 = 20 ∧
    calc_diff 1 4 = "+300.0%" := by
  have hm1 : max (100 : ℚ) 1 = 100 := max_eq_left (by norm_num)
  have hm2 : max (200 : ℚ) 1 = 200 := max_eq_left (by norm_num)
  refine ⟨?_, ?_, ?_⟩
  · rw [failure_rate, hm1, pyRound2_eval _ 500 (by norm_num)]
    norm_num
  · rw [failure_rate, hm2, pyRound2_eval _ 2000 (by norm_num)]
    norm_num
  · rw [calc_diff, if_neg (by norm_num : ¬(1 : ℚ) = 0)]
    have hd : ((4 : ℚ) - 1) / 1 * 100 = 300 := by norm_num
    rw [hd]
    have ht : roundHalfEven ((300 : ℚ) * 10) = 3000 := by
      have h1 : ((300 : ℚ) * 10) = ((3000 : ℤ) : ℚ) := by norm_num
      rw [h1, roundHalfEven_intCast]
    rw [ht]
    decide

/-- C9: the summary computation is total on rows with zero or missing
counts: the divisor `max(Request Count, 1)` is always positive (never a
division by zero), a zero request count just divides by 1, a row whose
two counts are 0 (the `safe_get` default for missing fields) yields
failure rate 0, and `calc_diff` returns `N/A` whenever the LocalStack
baseline value is 0. -/
theorem create_summary_total_on_degenerate_rows (fc rc aws_val : ℚ) :
    0 < max rc 1 ∧
    failure_rate fc 0 = pyRound2 (fc * 100) ∧
    failure_rate 0 0 = 0 ∧
    calc_diff 0 aws_val = "N/A" := by
  have hmax : max (0 : ℚ) 1 = 1 := max_eq_right zero_le_one
  refine ⟨lt_max_of_lt_right one_pos, ?_, ?_, by simp [calc_diff]⟩
  · rw [failure_rate, hmax, div_one]
  · rw [failure_rate, hmax, div_one, pyRound2_eval _ 0 (by norm_num)]
    norm_num

end Analysis

/-- Program counter of a `ProductSetupUser` thread running
`create_product` iterations (locustfile.py lines 148-180).  Each pc sits
between two atomic `SharedState` calls; HTTP responses are
nondeterministic environment input. -/
inductive SetupPC
  | ready
  | posting
  | adding (id : Int)
  | reading
  | deciding (total : Nat)
  | stopped
  deriving DecidableEq

/-- Program counter of a `ShopperUser` thread running `on_start`
(locustfile.py lines 190-195): poll the setup flag, then the product
count, and mark setup complete after observing a positive count. -/
inductive ShopperPC
  | checkFlag
  | checkCount
  | marking
  | done
  deriving DecidableEq

/-- A virtual-user thread of locustfile.py. -/
inductive ThreadState
  | setup (pc : SetupPC)
  | shopper (pc : ShopperPC)
  deriving DecidableEq

/-- A configuration of the whole process: the shared state plus the pcs
of the (unboundedly many) virtual-user threads. -/
structure Config where
  state : SharedState
  threads : Nat → ThreadState

/-- One interleaving step of the caller protocol, parameterised by the
configured `NUM_INITIAL_PRODUCTS` target.  Each step is a single atomic
`SharedState` call (plus thread-local control flow), matching the lock
granularity of the Python code.  The last three constructors are the
`SharedState` traffic of the shopping cycle itself (`__init__`,
`_checkout_cart`), which touches only the counters. -/
inductive Step (target : Nat) : Config → Config → Prop
  | setupStop (c : Config) (i : Nat) :
      c.threads i = .setup .ready →
      target ≤ c.state.get_product_count →
      Step target c
        ⟨c.state, Function.update c.threads i (.setup .stopped)⟩
  | setupPost (c : Config) (i : Nat) :
      c.threads i = .setup .ready →
      c.state.get_product_count < target →
      Step target c
        ⟨c.state, Function.update c.threads i (.setup .posting)⟩
  | setupRespOk (c : Config) (i : Nat) (id : Int) :
      c.threads i = .setup .posting →
      id ≠ 0 →
      Step target c
        ⟨c.state, Function.update c.threads i (.setup (.adding id))⟩
  | setupRespFail (c : Config) (i : Nat) :
      c.threads i = .setup .posting →
      Step target c
        ⟨c.state, Function.update c.threads i (.setup .ready)⟩
  | setupAdd (c : Config) (i : Nat) (id : Int) :
      c.threads i = .setup (.adding id) →
      Step target c
        ⟨c.state.add_product id,
         Function.update c.threads i (.setup .reading)⟩
  | setupRead (c : Config) (i : Nat) :
      c.threads i = .setup .reading →
      Step target c
        ⟨c.state, Function.update c.threads i
            (.setup (.deciding c.state.get_product_count))⟩
  | setupDecide (c : Config) (i : Nat) (total : Nat) :
      c.threads i = .setup (.deciding total) →
      Step target c
        ⟨if target ≤ total then c.state.mark_setup_complete else c.state,
         Function.update c.threads i (.setup .ready)⟩
  | shopperFlagTrue (c : Config) (i : Nat) :
      c.threads i = .shopper .checkFlag →
      c.state.is_setup_complete = true →
      Step target c
        ⟨c.state, Function.update c.threads i (.shopper .done)⟩
  | shopperFlagFalse (c : Config) (i : Nat) :
      c.threads i = .shopper .checkFlag →
      c.state.is_setup_complete = false →
      Step target c
        ⟨c.state, Function.update c.threads i (.shopper .checkCount)⟩
  | shopperCountPos (c : Config) (i : Nat) :
      c.threads i = .shopper .checkCount →
      0 < c.state.get_product_count →
      Step target c
        ⟨c.state, Function.update c.threads i (.shopper .marking)⟩
  | shopperCountZero (c : Config) (i : Nat) :
      c.threads i = .shopper .checkCount →
      c.state.get_product_count = 0 →
      Step target c
        ⟨c.state, Function.update c.threads i (.shopper .checkFlag)⟩
  | shopperMark (c : Config) (i : Nat) :
      c.threads i = .shopper .marking →
      Step target c
        ⟨c.state.mark_setup_complete,
         Function.update c.threads i (.shopper .done)⟩
  | envCheckout (c : Config) :
      Step target c ⟨(c.state.increment_checkout).2, c.threads⟩
  | envDeclined (c : Config) :
      Step target c ⟨(c.state.increment_declined).2, c.threads⟩
  | envCustomerId (c : Config) :
      Step target c ⟨(c.state.get_next_customer_id).2, c.threads⟩

/-- Reachability under the caller protocol. -/
def Reachable (target : Nat) (c0 c : Config) : Prop :=
  Relation.ReflTransGen (Step target) c0 c

/-- Thread-local part of the protocol invariant: a thread sitting just
after its own `add_product` (setup pcs `reading` / `deciding`) or just
after observing a positive product count (shopper pc `marking`) can rely
on the product list being non-empty. -/
def threadOK (st : SharedState) : ThreadState → Prop
  | .setup .reading => st.product_ids ≠ []
  | .setup (.deciding _) => st.product_ids ≠ []
  | .shopper .marking => st.product_ids ≠ []
  | _ => True

/-- The protocol invariant: the setup flag implies a non-empty product
list, and every thread's local knowledge is valid. -/
def Inv (c : Config) : Prop :=
  (c.state.setup_complete = true → c.state.product_ids ≠ []) ∧
  ∀ i, threadOK c.state (c.threads i)

lemma threadOK_of_nonempty_preserved (st st' : SharedState)
    (h : st.product_ids ≠ [] → st'.product_ids ≠ [])
    (t : ThreadState) (ht : threadOK st t) : threadOK st' t := by
  cases t with
  | setup pc => cases pc <;> simp only [threadOK] at ht ⊢ <;> first
      | trivial
      | exact h ht
  | shopper pc => cases pc <;> simp only [threadOK] at ht ⊢ <;> first
      | trivial
      | exact h ht

lemma inv_step (target : Nat) (c c' : Config) (hstep : Step target c c')
    (hinv : Inv c) : Inv c' := by
  obtain ⟨hflag, hthreads⟩ := hinv
  cases hstep with
  | setupStop i hth htg =>
      exact ⟨hflag, fun j => by
        rcases eq_or_ne j i with rfl | hne
        · simp [Function.update_same, threadOK]
        · simpa [Function.update_noteq hne] using hthreads j⟩
  | setupPost i hth htg =>
      exact ⟨hflag, fun j => by
        rcases eq_or_ne j i with rfl | hne
        · simp [Function.update_same, threadOK]
        · simpa [Function.update_noteq hne] using hthreads j⟩
  | setupRespOk i id hth hid =>
      exact ⟨hflag, fun j => by
        rcases eq_or_ne j i with rfl | hne
        · simp [Function.update_same, threadOK]
        · simpa [Function.update_noteq hne] using hthreads j⟩
  | setupRespFail i hth =>
      exact ⟨hflag, fun j => by
        rcases eq_or_ne j i with rfl | hne
        · simp [Function.update_same, threadOK]
        · simpa [Function.update_noteq hne] using hthreads j⟩
  | setupAdd i id hth =>
      have hne' : (c.state.add_product id).product_ids ≠ [] := by
        simp [SharedState.add_product]
      refine ⟨fun _ => hne', fun j => ?_⟩
      rcases eq_or_ne j i with rfl | hne
      · simp [Function.update_same, threadOK, hne']
      · show threadOK (c.state.add_product id)
          (Function.update c.threads i (ThreadState.setup .reading) j)
        rw [Function.update_noteq hne]
        exact threadOK_of_nonempty_preserved c.state _ (fun _ => hne') _
          (hthreads j)
  | setupRead i hth =>
      have hprod : c.state.product_ids ≠ [] := by
        have h := hthreads i
        rw [hth] at h
        exact h
      exact ⟨hflag, fun j => by
        rcases eq_or_ne j i with rfl | hne
        · simpa [Function.update_same, threadOK] using hprod
        · simpa [Function.update_noteq hne] using hthreads j⟩
  | setupDecide i total hth =>
      have hprod : c.state.product_ids ≠ [] := by
        have h := hthreads i
        rw [hth] at h
        exact h
      by_cases hle : target ≤ total
      · refine ⟨?_, fun j => ?_⟩
        · intro _
          simpa [SharedState.mark_setup_complete, hle] using hprod
        · rcases eq_or_ne j i with rfl | hne
          · simp [Function.update_same, threadOK]
          · show threadOK
              (if target ≤ total then c.state.mark_setup_complete
               else c.state)
              (Function.update c.threads i (ThreadState.setup .ready) j)
            rw [if_pos hle, Function.update_noteq hne]
            refine threadOK_of_nonempty_preserved c.state _ ?_ _ (hthreads j)
            simp [SharedState.mark_setup_complete]
      · refine ⟨?_, fun j => ?_⟩
        · simpa [hle] using hflag
        · rcases eq_or_ne j i with rfl | hne
          · simp [Function.update_same, threadOK]
          · show threadOK
              (if target ≤ total then c.state.mark_setup_complete
               else c.state)
              (Function.update c.threads i (ThreadState.setup .ready) j)
            rw [if_neg hle, Function.update_noteq hne]
            exact hthreads j
  | shopperFlagTrue i hth hf =>
      exact ⟨hflag, fun j => by
        rcases eq_or_ne j i with rfl | hne
        · simp [Function.update_same, threadOK]
        · simpa [Function.update_noteq hne] using hthreads j⟩
  | shopperFlagFalse i hth hf =>
      exact ⟨hflag, fun j => by
        rcases eq_or_ne j i with rfl | hne
        · simp [Function.update_same, threadOK]
        · simpa [Function.update_noteq hne] using hthreads j⟩
  | shopperCountPos i hth hpos =>
      have hprod : c.state.product_ids ≠ [] := by
        intro hemp
        rw [SharedState.get_product_count, hemp] at hpos
        simp at hpos
      exact ⟨hflag, fun j => by
        rcases eq_or_ne j i with rfl | hne
        · simpa [Function.update_same, threadOK] using hprod
        · simpa [Function.update_noteq hne] using hthreads j⟩
  | shopperCountZero i hth hz =>
      exact ⟨hflag, fun j => by
        rcases eq_or_ne j i with rfl | hne
        · simp [Function.update_same, threadOK]
        · simpa [Function.update_noteq hne] using hthreads j⟩
  | shopperMark i hth =>
      have hprod : c.state.product_ids ≠ [] := by
        have h := hthreads i
        rw [hth] at h
        exact h
      refine ⟨fun _ => by simpa [SharedState.mark_setup_complete] using hprod,
        fun j => ?_⟩
      rcases eq_or_ne j i with rfl | hne
      · simp [Function.update_same, threadOK]
      · show threadOK c.state.mark_setup_complete
          (Function.update c.threads i (ThreadState.shopper .done) j)
        rw [Function.update_noteq hne]
        refine threadOK_of_nonempty_preserved c.state _ ?_ _ (hthreads j)
        simp [SharedState.mark_setup_complete]
  | envCheckout =>
      refine ⟨?_, fun j => ?_⟩
      · simpa [SharedState.increment_checkout] using hflag
      · refine threadOK_of_nonempty_preserved c.state _ ?_ _ (hthreads j)
        simp [SharedState.increment_checkout]
  | envDeclined =>
      refine ⟨?_, fun j => ?_⟩
      · simpa [SharedState.increment_declined] using hflag
      · refine threadOK_of_nonempty_preserved c.state _ ?_ _ (hthreads j)
        simp [SharedState.increment_declined]
  | envCustomerId =>
      refine ⟨?_, fun j => ?_⟩
      · simpa [SharedState.get_next_customer_id] using hflag
      · refine threadOK_of_nonempty_preserved c.state _ ?_ _ (hthreads j)
        simp [SharedState.get_next_customer_id]

lemma inv_reachable (target : Nat) (c0 c : Config)
    (hreach : Reachable target c0 c) (h0 : Inv c0) : Inv c := by
  induction hreach with
  | refl => exact h0
  | tail _ hstep ih => exact inv_step target _ _ hstep ih

/-- C4: along every interleaving of the caller protocol (ProductSetupUser
iterations, ShopperUser `on_start` polling, and the shopping cycle's
counter traffic) started from a fresh `SharedState` with every thread at
the top of its code, any reachable configuration in which
`setup_complete` is true has a non-empty `product_ids` list: the flag is
only ever set after at least one product exists. -/
theorem setup_complete_implies_products (target : Nat)
    (t0 : Nat → ThreadState) (c : Config)
    (hinit : ∀ i, t0 i = .setup .ready ∨ t0 i = .shopper .checkFlag)
    (hreach : Reachable target ⟨SharedState.init, t0⟩ c)
    (hflag : c.state.setup_complete = true) :
    c.state.product_ids ≠ [] := by
  have h0 : Inv ⟨SharedState.init, t0⟩ := by
    constructor
    · intro h
      simp [SharedState.init] at h
    · intro i
      rcases hinit i with h | h <;> simp [h, threadOK]
  exact (inv_reachable target _ c hreach h0).1 hflag

/-- Witness for C4: a concrete five-step run (target 1, one setup thread)
that posts a product, adds id 7, reads count 1 and marks setup complete;
the theorem then yields that the final product list is non-empty. -/
theorem setup_complete_implies_products_witness :
    ((SharedState.init.add_product 7).mark_setup_complete).product_ids ≠
      [] := by
  have t0 : Nat → ThreadState := fun _ => .setup .ready
  refine setup_complete_implies_products 1 (fun _ => .setup .ready)
    ⟨(SharedState.init.add_product 7).mark_setup_complete,
     Function.update
       (Function.update
         (Function.update
           (Function.update
             (Function.update (fun _ => ThreadState.setup .ready)
               0 (.setup .posting))
             0 (.setup (.adding 7)))
           0 (.setup .reading))
         0 (.setup (.deciding 1)))
       0 (.setup .ready)⟩
    (fun i => Or.inl rfl) ?_ rfl
  refine Relation.ReflTransGen.tail (Relation.ReflTransGen.tail
    (Relation.ReflTransGen.tail (Relation.ReflTransGen.tail
      (Relation.ReflTransGen.tail Relation.ReflTransGen.refl
        (Step.setupPost _ 0 rfl (by decide)))
      (Step.setupRespOk _ 0 7 (by simp) (by decide)))
    (Step.setupAdd _ 0 7 (by simp)))
    (Step.setupRead _ 0 (by simp))) ?_
  have hdec := @Step.setupDecide 1
    ⟨SharedState.init.add_product 7,
     Function.update
       (Function.update
         (Function.update
           (Function.update (fun _ => ThreadState.setup .ready)
             0 (.setup .posting))
           0 (.setup (.adding 7)))
         0 (.setup .reading))
       0 (.setup (.deciding 1))⟩
    0 1 (by simp)
  simpa using hdec

end LoadTest
